import Mathlib

/-!
Verification of the Bank-Agent repository (src/Assignment 5/main.py).

The file embeds the repository code shallowly:
* the pydantic models `Account`, `MessageOutput`, `GuardrailAgentOutput`,
  `OutputCheck` become Lean structures;
* the guardrail functions `check_bank_related` and `control_response`, the
  tool-enablement predicate `is_authenticated` and the tool `check_balance`
  become Lean functions.  The nested `Runner.run(checking_agent, ...)` calls
  inside the guardrail functions are language-model inferences, hence opaque
  external collaborators; they are abstracted as a `judge` function argument
  giving the checking run final output.
* the `agents`-SDK runtime (`Runner.run`, tool gating, handoffs) is not part
  of the repository source; it is modelled from the spec where a claim needs
  it (see the definitions marked `Modelled from the spec:`).

Python contexts are duck-typed: the enablement predicate may receive an
object lacking a `name` or `pin` attribute, in which case attribute access
raises.  This is embedded by `Ctx`, whose optional fields model possibly
missing attributes, with attribute access in the `Except` monad.
-/

namespace BankAgent

/-- The pydantic model `Account(name: str, pin: int)` from main.py. -/
structure Account where
  name : String
  pin : Int
deriving Repr, DecidableEq

/-- A duck-typed Python context object as seen by `is_authenticated`:
each attribute may be absent, in which case reading it raises
`AttributeError`. -/
structure Ctx where
  name : Option String
  pin : Option Int
deriving Repr, DecidableEq

/-- Reading an attribute of a duck-typed object: `none` raises. -/
def getAttr {α : Type} (v : Option α) (attrName : String) : Except String α :=
  match v with
  | some x => Except.ok x
  | none => Except.error ("AttributeError: " ++ attrName)

/-- An `Account` always has both attributes. -/
def Account.toCtx (a : Account) : Ctx :=
  { name := some a.name, pin := some a.pin }

/-- The pydantic model `MessageOutput(response: str)`. -/
structure MessageOutput where
  response : String
deriving Repr, DecidableEq

/-- The pydantic model `GuardrailAgentOutput(is_bank_related: bool,
reasoning: str | None)`, the output type of the input-guardrail checking
agent. -/
structure GuardrailAgentOutput where
  is_bank_related : Bool
  reasoning : Option String := none
deriving Repr, DecidableEq

/-- The pydantic model `OutputCheck(is_bank_queries: bool,
reasoning: str | None)`, the output type of the output-guardrail checking
agent. -/
structure OutputCheck where
  is_bank_queries : Bool
  reasoning : Option String := none
deriving Repr, DecidableEq

/-- The SDK type `GuardrailFunctionOutput(output_info, tripwire_triggered)`
returned by both guardrail functions in main.py. -/
structure GuardrailFunctionOutput (α : Type) where
  output_info : α
  tripwire_triggered : Bool
deriving Repr, DecidableEq

/-- Identifier of an input-guardrail function defined in main.py. -/
inductive InputGuardrailId where
  | check_bank_related
deriving Repr, DecidableEq

/-- Identifier of an output-guardrail function defined in main.py. -/
inductive OutputGuardrailId where
  | control_response
deriving Repr, DecidableEq

/-- Identifier of a structured `output_type` that an agent in main.py may
declare for the payload the runtime coerces model text into.  Only
`bank_agent` declares one (`MessageOutput`); the checking agents are
abstracted inside the judge oracles and never run by the modelled runner. -/
inductive OutputTypeId where
  | messageOutput
deriving Repr, DecidableEq

/-- The SDK `Agent(...)` constructor as used in main.py, restricted to the
fields the repository passes: `name`, `instructions`, `handoffs`,
`input_guardrails`, `output_guardrails`, `output_type`.  Omitted keyword
arguments default to empty lists / `None`, exactly as in the SDK calls of
main.py.  An inductive (rather than a structure) because handoff targets
are themselves agents. -/
inductive AgentDef where
  | mk (name : String) (instructions : String)
      (handoffs : List AgentDef)
      (input_guardrails : List InputGuardrailId)
      (output_guardrails : List OutputGuardrailId)
      ( output_type : Option OutputTypeId)

def AgentDef.name : AgentDef → String
  | .mk n _ _ _ _ _ => n

def AgentDef.instructions : AgentDef → String
  | .mk _ i _ _ _ _ => i

def AgentDef.handoffs : AgentDef → List AgentDef
  | .mk _ _ h _ _ _ => h

def AgentDef.input_guardrails : AgentDef → List InputGuardrailId
  | .mk _ _ _ ig _ _ => ig

def AgentDef.output_guardrails : AgentDef → List OutputGuardrailId
  | .mk _ _ _ _ og _ => og

def AgentDef.output_type : AgentDef → Option OutputTypeId
  | .mk _ _ _ _ _ ot => ot

/-- `loan_agent = Agent(name=..., instructions=...)` from main.py: no tools,
no handoffs, no guardrails, no output_type. -/
def loan_agent : AgentDef :=
  .mk "Loan Agent"
    "You specialize in loan-related questions. Share details about loan types, requirements, interest, repayment terms, and general application steps."
    [] [] [] none

/-- `customer_agent = Agent(name=..., instructions=...)` from main.py. -/
def customer_agent : AgentDef :=
  .mk "Customer Agent"
    "You handle customer service queries such as deposits, withdrawals, refunds, and authentication issues. Be polite and ask for any missing details when necessary."
    [] [] [] none

/-- `bank_agent = Agent(...)` from main.py: handoffs to `customer_agent`
and `loan_agent`, one input guardrail, one output guardrail, output type
`MessageOutput`. -/
def bank_agent : AgentDef :=
  .mk "Bank Agent"
    "You are a digital bank assistant. Manage balance checks, deposits, withdrawals, transfers, and refunds. Always verify user identity before sharing sensitive details. If the request is more specific, pass it to customer_agent or loan_agent."
    [customer_agent, loan_agent]
    [InputGuardrailId.check_bank_related]
    [OutputGuardrailId.control_response]
    (some OutputTypeId.messageOutput)

/-- The input-guardrail function `check_bank_related` (main.py lines 75-81).
`judge ctx input` abstracts `Runner.run(guardrail_agent, input,
context=ctx).final_output`, the opaque checking-agent inference; the body
then builds `GuardrailFunctionOutput(output_info=result,
tripwire_triggered=not bool(result.is_bank_related))`. -/
def check_bank_related (judge : Ctx → String → GuardrailAgentOutput)
    (ctx : Ctx) (input : String) : GuardrailFunctionOutput GuardrailAgentOutput :=
  let result := judge ctx input
  { output_info := result, tripwire_triggered := !result.is_bank_related }

/-- The output-guardrail function `control_response` (main.py lines 100-106).
`judge ctx text` abstracts `Runner.run(control_guardrail_agent, text,
context=ctx).final_output`; the body runs the checking agent on
`output.response` and negates `is_bank_queries`. -/
def control_response (judge : Ctx → String → OutputCheck)
    (ctx : Ctx) (output : MessageOutput) : GuardrailFunctionOutput OutputCheck :=
  let result := judge ctx output.response
  { output_info := result, tripwire_triggered := !result.is_bank_queries }

/-- The body of the `try:` block of `is_authenticated` (main.py lines 84-88):
`ctx.context.name == "Tooba" and ctx.context.pin == 678`, with Python
short-circuit evaluation and duck-typed attribute access that may raise. -/
def is_authenticated_body (ctx : Ctx) (agent : AgentDef) : Except String Bool := do
  let n ← getAttr ctx.name "name"
  if n == "Tooba" then do
    let p ← getAttr ctx.pin "pin"
    pure (p == 678)
  else
    pure false

/-- The enablement predicate `is_authenticated` (main.py lines 84-88): the
try/except converts any failure of the body into `False`. -/
def is_authenticated (ctx : Ctx) (agent : AgentDef) : Bool :=
  match is_authenticated_body ctx agent with
  | Except.ok b => b
  | Except.error _ => false

/-- The tool `check_balance` (main.py lines 90-92): returns the f-string
`f"The balance for account {account_number} is $100,000"`. -/
def check_balance (account_number : String) : String :=
  "The balance for account " ++ account_number ++ " is $100,000"

/-- Modelled from the spec: §4.1 tool gating of the `agents` SDK (not under
src/).  `is_enabled` is evaluated against (Context, Agent); if the predicate
raises any failure the tool is treated as disabled (fail-closed) rather than
propagating the failure. -/
def toolEnabled (pred : Ctx → AgentDef → Except String Bool)
    (ctx : Ctx) (agent : AgentDef) : Bool :=
  match pred ctx agent with
  | Except.ok b => b
  | Except.error _ => false

/-- The model-inference collaborator's decision for one turn (spec §6):
either a final textual output, or a delegation signal naming one handoff
target (by its index in the agent's declared `handoffs` list, since the
interface only offers declared targets) plus a delegated input. -/
inductive InferDecision where
  | final (text : String)
  | handoff (target : Nat) (delegated_input : String)
deriving Repr, DecidableEq

/-- The payload of a successful run: raw model text when the agent declares
no `output_type`, or the text coerced into the declared schema. -/
inductive FinalPayload where
  | raw (text : String)
  | message (m : MessageOutput)
deriving Repr, DecidableEq

/-- Modelled from the spec: §4.4 step 5, validate/coerce the raw model
output into the agent's `output_shape`; with no declared shape the text
stands as is. -/
def coerce : Option OutputTypeId → String → FinalPayload
  | none, s => FinalPayload.raw s
  | some OutputTypeId.messageOutput, s => FinalPayload.message { response := s }

/-- The textual payload an output guardrail inspects (spec §4.2: the
candidate's `response` field, or the raw text itself). -/
def payloadMessage : FinalPayload → MessageOutput
  | FinalPayload.raw s => { response := s }
  | FinalPayload.message m => m

/-- The opaque external collaborators of one run, bundled: the two checking
agents' inferences (the final outputs of `Runner.run(guardrail_agent, ...)`
and `Runner.run(control_guardrail_agent, ...)`) and the primary model
inference, each a function of the live context and text. -/
structure Oracle where
  bankRelated : Ctx → String → GuardrailAgentOutput
  bankQueries : Ctx → String → OutputCheck
  infer : Ctx → String → String → InferDecision

/-- Evaluate one input guardrail of main.py against the live context and the
raw input, via the source function `check_bank_related`. -/
def evalInputGuardrail (o : Oracle) (ctx : Ctx) :
    InputGuardrailId → String → GuardrailFunctionOutput GuardrailAgentOutput
  | InputGuardrailId.check_bank_related, input => check_bank_related o.bankRelated ctx input

/-- Evaluate one output guardrail of main.py against the candidate payload,
via the source function `control_response`. -/
def evalOutputGuardrail (o : Oracle) (ctx : Ctx) :
    OutputGuardrailId → FinalPayload → GuardrailFunctionOutput OutputCheck
  | OutputGuardrailId.control_response, p => control_response o.bankQueries ctx (payloadMessage p)

/-- Modelled from the spec: §4.2 sequencing — guardrails run in declaration
order and the first tripped one aborts; returns the triggering verdict's
`output_info`. -/
def firstTripInput (o : Oracle) (ctx : Ctx) :
    List InputGuardrailId → String → Option GuardrailAgentOutput
  | [], _ => none
  | g :: gs, input =>
    let v := evalInputGuardrail o ctx g input
    if v.tripwire_triggered then some v.output_info else firstTripInput o ctx gs input

/-- Modelled from the spec: §4.2, same first-trip-aborts rule for output
guardrails. -/
def firstTripOutput (o : Oracle) (ctx : Ctx) :
    List OutputGuardrailId → FinalPayload → Option OutputCheck
  | [], _ => none
  | g :: gs, p =>
    let v := evalOutputGuardrail o ctx g p
    if v.tripwire_triggered then some v.output_info else firstTripOutput o ctx gs p

/-- The observable outcome of one `Runner.run` call: a final result, one of
the two tripwire signals (each carrying the checking agent's verdict), a
delegation to a target the agent never declared (an interface violation the
well-formedness predicate `OracleWfFor` rules out), or fuel exhaustion of
the model (delegation depth is unbounded in the design, spec §9). -/
inductive Outcome where
  | ok (result : FinalPayload)
  | inputTripwire (info : GuardrailAgentOutput)
  | outputTripwire (info : OutputCheck)
  | invalidHandoff
  | outOfFuel
deriving Repr, DecidableEq

/-- Modelled from the spec: §4.4 the Runner algorithm (the `agents` SDK is
not under src/).  Input guardrails first, abort on first trip; then model
inference; a delegation re-enters the same orchestration on the target with
the same context (skipping the delegating agent's output guardrails, §4.3);
otherwise the text is coerced into the agent's output shape and the output
guardrails run, abort on first trip.  `fuel` bounds delegation depth. -/
def runAgent (o : Oracle) : Nat → Ctx → AgentDef → String → Outcome
  | 0, _, _, _ => Outcome.outOfFuel
  | Nat.succ fuel, ctx, a, input =>
    match firstTripInput o ctx a.input_guardrails input with
    | some v => Outcome.inputTripwire v
    | none =>
      match o.infer ctx a.name input with
      | InferDecision.handoff t dinput =>
        match a.handoffs.get? t with
        | some b => runAgent o fuel ctx b dinput
        | none => Outcome.invalidHandoff
      | InferDecision.final text =>
        let candidate := coerce a.output_type text
        match firstTripOutput o ctx a.output_guardrails candidate with
        | some v => Outcome.outputTripwire v
        | none => Outcome.ok candidate

/-- The interface contract of spec §6: inference on `a` delegates only to
targets `a` actually declared. -/
def OracleWfFor (o : Oracle) (a : AgentDef) : Prop :=
  ∀ ctx input t d, o.infer ctx a.name input = InferDecision.handoff t d →
    t < a.handoffs.length

/-! ### State-threaded view, for the frame property

To state that the context is never mutated during a run, the run is
re-expressed with an explicit context state threaded through every step: a
component that mutated the context would return a different context state.
The bodies of the source functions contain no write to the context, so
their state-threaded embeddings pass the state through unchanged; the
opaque collaborators, however, are given the chance to return a new state,
and the frame theorem assumes only that they preserve it (the checking
agents have no tools, so nothing in them can touch the context). -/

/-- State-threaded collaborators: each call may return an updated context
state. -/
structure OracleSt where
  bankRelated : Ctx → String → GuardrailAgentOutput × Ctx
  bankQueries : Ctx → String → OutputCheck × Ctx
  infer : Ctx → String → String → InferDecision × Ctx

/-- Forget the state threading of the collaborators. -/
def OracleSt.toPure (o : OracleSt) : Oracle where
  bankRelated := fun c s => (o.bankRelated c s).1
  bankQueries := fun c s => (o.bankQueries c s).1
  infer := fun c n s => (o.infer c n s).1

/-- Every collaborator call returns the context state it was given. -/
def OracleSt.Preserving (o : OracleSt) : Prop :=
  (∀ c s, (o.bankRelated c s).2 = c)
  ∧ (∀ c s, (o.bankQueries c s).2 = c)
  ∧ (∀ c n s, (o.infer c n s).2 = c)

/-- State-threaded `check_bank_related`: the body (main.py lines 75-81)
performs the nested checking run and builds the verdict; it contains no
assignment to the context, so the state out is exactly the judge's state
out. -/
def check_bank_related_st (judge : Ctx → String → GuardrailAgentOutput × Ctx)
    (ctx : Ctx) (input : String) :
    GuardrailFunctionOutput GuardrailAgentOutput × Ctx :=
  let r := judge ctx input
  ({ output_info := r.1, tripwire_triggered := !r.1.is_bank_related }, r.2)

/-- State-threaded `control_response`: same shape, main.py lines 100-106. -/
def control_response_st (judge : Ctx → String → OutputCheck × Ctx)
    (ctx : Ctx) (output : MessageOutput) :
    GuardrailFunctionOutput OutputCheck × Ctx :=
  let r := judge ctx output.response
  ({ output_info := r.1, tripwire_triggered := !r.1.is_bank_queries }, r.2)

/-- State-threaded `is_authenticated`: the body (main.py lines 84-88) only
reads `ctx.context.name` and `ctx.context.pin`, so the state passes through
unchanged. -/
def is_authenticated_st (ctx : Ctx) (agent : AgentDef) : Bool × Ctx :=
  (is_authenticated ctx agent, ctx)

/-- State-threaded first-trip scan over the input guardrails. -/
def firstTripInputSt (o : OracleSt) (ctx : Ctx) :
    List InputGuardrailId → String → Option GuardrailAgentOutput × Ctx
  | [], _ => (none, ctx)
  | InputGuardrailId.check_bank_related :: gs, input =>
    let r := check_bank_related_st o.bankRelated ctx input
    if r.1.tripwire_triggered then (some r.1.output_info, r.2)
    else firstTripInputSt o r.2 gs input

/-- State-threaded first-trip scan over the output guardrails. -/
def firstTripOutputSt (o : OracleSt) (ctx : Ctx) :
    List OutputGuardrailId → FinalPayload → Option OutputCheck × Ctx
  | [], _ => (none, ctx)
  | OutputGuardrailId.control_response :: gs, p =>
    let r := control_response_st o.bankQueries ctx (payloadMessage p)
    if r.1.tripwire_triggered then (some r.1.output_info, r.2)
    else firstTripOutputSt o r.2 gs p

/-- Modelled from the spec: the Runner of §4.4 with the context state made
explicit at every step, so that mutation anywhere in a run would be
observable in the returned state. -/
def runAgentSt (o : OracleSt) : Nat → Ctx → AgentDef → String → Outcome × Ctx
  | 0, ctx, _, _ => (Outcome.outOfFuel, ctx)
  | Nat.succ fuel, ctx, a, input =>
    match firstTripInputSt o ctx a.input_guardrails input with
    | (some v, ctx1) => (Outcome.inputTripwire v, ctx1)
    | (none, ctx1) =>
      match o.infer ctx1 a.name input with
      | (InferDecision.handoff t dinput, ctx2) =>
        match a.handoffs.get? t with
        | some b => runAgentSt o fuel ctx2 b dinput
        | none => (Outcome.invalidHandoff, ctx2)
      | (InferDecision.final text, ctx2) =>
        let candidate := coerce a.output_type text
        match firstTripOutputSt o ctx2 a.output_guardrails candidate with
        | (some v, ctx3) => (Outcome.outputTripwire v, ctx3)
        | (none, ctx3) => (Outcome.ok candidate, ctx3)

/-! ### Fixtures used by witness theorems -/

/-- The demo context `user_context = Account(name="Tooba", pin=678)`. -/
def user_context : Account :=
  { name := "Tooba", pin := 678 }

/-- An input-guardrail judge that finds every input bank-related, with no
reasoning. -/
def judgeRelatedYes : Ctx → String → GuardrailAgentOutput :=
  fun _ _ => { is_bank_related := true }

/-- Same verdict boolean as `judgeRelatedYes` but with different
reasoning. -/
def judgeRelatedYesReasoned : Ctx → String → GuardrailAgentOutput :=
  fun _ _ => { is_bank_related := true, reasoning := some "mentions a balance" }

/-- A concrete oracle for the C8 witness: the checking agents approve
everything, `bank_agent`'s inference hands off to its second declared
target (`loan_agent`) with a rephrased input, and the target answers. -/
def oracleC8 : Oracle where
  bankRelated := fun _ _ => { is_bank_related := true }
  bankQueries := fun _ _ => { is_bank_queries := true }
  infer := fun _ name input =>
    if name == "Bank Agent" then InferDecision.handoff 1 "loan requirements"
    else InferDecision.final ("answer to " ++ input)

/-- A concrete state-threaded oracle whose collaborators approve everything
and preserve the context state. -/
def oracleStDemo : OracleSt where
  bankRelated := fun c _ => ({ is_bank_related := true }, c)
  bankQueries := fun c _ => ({ is_bank_queries := true }, c)
  infer := fun c _ _ => (InferDecision.final "All good.", c)

/-! ### Helper lemmas about the modelled Runner -/

/-- Unfolding of one Runner step on `bank_agent` when its input guardrail
trips: the run aborts with the checking verdict, whatever the inference
collaborator would have done. -/
lemma runAgent_bank_inputTrip (o : Oracle) (fuel : Nat) (ctx : Ctx) (input : String)
    (h : (o.bankRelated ctx input).is_bank_related = false) :
    runAgent o (fuel + 1) ctx bank_agent input
      = Outcome.inputTripwire (o.bankRelated ctx input) := by
  simp [runAgent, bank_agent, AgentDef.input_guardrails, firstTripInput,
    evalInputGuardrail, check_bank_related, h]

/-- A run of an agent with no handoffs and no guardrails reduces to the
bare inference decision: a final text is returned (coerced), a delegation
is an interface violation.  In particular such a run is independent of the
fuel and of both guardrail judges. -/
lemma runAgent_plain (o : Oracle) (ctx : Ctx) (a : AgentDef) (input : String)
    (hh : a.handoffs = []) (hig : a.input_guardrails = [])
    (hog : a.output_guardrails = []) (fuel : Nat) :
    runAgent o (fuel + 1) ctx a input
      = match o.infer ctx a.name input with
        | InferDecision.final text => Outcome.ok (coerce a.output_type text)
        | InferDecision.handoff _ _ => Outcome.invalidHandoff := by
  simp only [runAgent, hig, firstTripInput]
  cases o.infer ctx a.name input with
  | final text => simp [hog, firstTripOutput]
  | handoff t d => simp [hh]

/-! ### Claim theorems -/

/-- C1: for every guardrail evaluation, the verdict tripwire_triggered flag
is the logical negation of the single boolean acceptability field reported
by the checking agent (`is_bank_related` for `check_bank_related`,
`is_bank_queries` for `control_response`); two checking-agent behaviours
agreeing on that field alone yield the same trip decision, so the runtime
bases the trip decision on no other part of the checking agent output. -/
theorem C1_tripwire_negation :
    (∀ (j : Ctx → String → GuardrailAgentOutput) (ctx : Ctx) (input : String),
      (check_bank_related j ctx input).tripwire_triggered
        = !(j ctx input).is_bank_related)
    ∧ (∀ (j : Ctx → String → OutputCheck) (ctx : Ctx) (output : MessageOutput),
      (control_response j ctx output).tripwire_triggered
        = !(j ctx output.response).is_bank_queries)
    ∧ (∀ (j j' : Ctx → String → GuardrailAgentOutput) (ctx : Ctx) (input : String),
      (j ctx input).is_bank_related = (j' ctx input).is_bank_related →
      (check_bank_related j ctx input).tripwire_triggered
        = (check_bank_related j' ctx input).tripwire_triggered)
    ∧ (∀ (j j' : Ctx → String → OutputCheck) (ctx : Ctx) (output : MessageOutput),
      (j ctx output.response).is_bank_queries = (j' ctx output.response).is_bank_queries →
      (control_response j ctx output).tripwire_triggered
        = (control_response j' ctx output).tripwire_triggered) := by
  refine ⟨fun j ctx input => rfl, fun j ctx output => rfl, ?_, ?_⟩
  · intro j j' ctx input h
    simp [check_bank_related, h]
  · intro j j' ctx output h
    simp [control_response, h]

/-- Witness for C1: two checking agents that agree that the input is
bank-related but differ in their reasoning produce the same trip
decision. -/
theorem C1_tripwire_negation_witness :
    (check_bank_related judgeRelatedYes (Account.toCtx user_context) "I want to check my balance.").tripwire_triggered
      = (check_bank_related judgeRelatedYesReasoned (Account.toCtx user_context) "I want to check my balance.").tripwire_triggered :=
  C1_tripwire_negation.2.2.1 judgeRelatedYes judgeRelatedYesReasoned
    (Account.toCtx user_context) "I want to check my balance." rfl

/-- C2: tool visibility is a deterministic function of (Context, Agent):
for every agent, the context `{name:"Tooba", pin:678}` makes
`is_authenticated` true (so `check_balance` is enabled), the context
`{name:"Tooba", pin:0}` makes it false (disabled), a predicate evaluation
that raises yields disabled under the fail-closed gating, and the gating
of a boolean predicate is exactly the predicate's value. -/
theorem C2_tool_visibility :
    (∀ a : AgentDef,
      is_authenticated (Account.toCtx { name := "Tooba", pin := 678 }) a = true)
    ∧ (∀ a : AgentDef,
      is_authenticated (Account.toCtx { name := "Tooba", pin := 0 }) a = false)
    ∧ (∀ (p : Ctx → AgentDef → Except String Bool) (c : Ctx) (a : AgentDef) (e : String),
      p c a = Except.error e → toolEnabled p c a = false)
    ∧ (∀ (c : Ctx) (a : AgentDef),
      toolEnabled (fun c' a' => Except.ok (is_authenticated c' a')) c a
        = is_authenticated c a) := by
  refine ⟨fun a => rfl, fun a => rfl, ?_, fun c a => rfl⟩
  intro p c a e h
  simp [toolEnabled, h]

/-- Witness for C2: a predicate that raises on the demo context leaves the
tool disabled. -/
theorem C2_tool_visibility_witness :
    toolEnabled (fun _ _ => Except.error "boom") (Account.toCtx user_context) bank_agent = false :=
  C2_tool_visibility.2.2.1 (fun _ _ => Except.error "boom")
    (Account.toCtx user_context) bank_agent "boom" rfl

/-- C3: tool gating is fail-closed and a predicate failure never
propagates: whenever evaluating the enablement check raises (in particular
on a context lacking the `name` attribute, or lacking the `pin` attribute
while the name check passes), `is_authenticated` returns `False` — it is a
total function into `Bool`, so the failure neither enables the capability
nor escapes to the caller. -/
theorem C3_fail_closed :
    (∀ (c : Ctx) (a : AgentDef) (e : String),
      is_authenticated_body c a = Except.error e → is_authenticated c a = false)
    ∧ (∀ (a : AgentDef) (p : Option Int),
      is_authenticated { name := none, pin := p } a = false)
    ∧ (∀ a : AgentDef,
      is_authenticated { name := some "Tooba", pin := none } a = false) := by
  refine ⟨?_, fun a p => rfl, fun a => rfl⟩
  intro c a e h
  simp [is_authenticated, h]

/-- Witness for C3: on a context with no attributes at all, the enablement
check raises an `AttributeError` and the predicate reports disabled. -/
theorem C3_fail_closed_witness :
    is_authenticated { name := none, pin := none } bank_agent = false :=
  C3_fail_closed.1 { name := none, pin := none } bank_agent "AttributeError: name" rfl

/-- C4: for every input that the input-guardrail checking agent judges not
bank-related, `Runner.run` on `bank_agent` raises
`InputGuardrailTripwireTriggered` (carrying that verdict), and the primary
agent's inference function is never invoked on that input: the outcome is
the same whatever inference collaborator is plugged in. -/
theorem C4_input_guardrail_blocks (o : Oracle) (fuel : Nat) (ctx : Ctx) (input : String)
    (h : (o.bankRelated ctx input).is_bank_related = false) :
    runAgent o (fuel + 1) ctx bank_agent input
      = Outcome.inputTripwire (o.bankRelated ctx input)
    ∧ ∀ inf : Ctx → String → String → InferDecision,
      runAgent { o with infer := inf } (fuel + 1) ctx bank_agent input
        = Outcome.inputTripwire (o.bankRelated ctx input) := by
  refine ⟨runAgent_bank_inputTrip o fuel ctx input h, fun inf => ?_⟩
  exact runAgent_bank_inputTrip { o with infer := inf } fuel ctx input h

/-- Witness for C4: a checking agent that finds no input bank-related trips
the input guardrail on the math-homework demo prompt, for any inference
function. -/
theorem C4_input_guardrail_blocks_witness :
    runAgent
      { bankRelated := fun _ _ => { is_bank_related := false },
        bankQueries := fun _ _ => { is_bank_queries := true },
        infer := fun _ _ _ => InferDecision.final "x" }
      1 (Account.toCtx user_context) bank_agent "Help me solve my math homework: 6x + 9 = 22"
      = Outcome.inputTripwire { is_bank_related := false } :=
  (C4_input_guardrail_blocks
    { bankRelated := fun _ _ => { is_bank_related := false },
      bankQueries := fun _ _ => { is_bank_queries := true },
      infer := fun _ _ _ => InferDecision.final "x" }
    0 (Account.toCtx user_context) "Help me solve my math homework: 6x + 9 = 22" rfl).1

/-- C5: for every candidate output that the output-guardrail checking agent
judges not bank-related, `Runner.run` on `bank_agent` raises
`OutputGuardrailTripwireTriggered` (carrying that verdict), and the
candidate is never returned to the caller. -/
theorem C5_output_guardrail_blocks (o : Oracle) (fuel : Nat) (ctx : Ctx)
    (input text : String)
    (hin : (o.bankRelated ctx input).is_bank_related = true)
    (hinf : o.infer ctx bank_agent.name input = InferDecision.final text)
    (hout : (o.bankQueries ctx text).is_bank_queries = false) :
    runAgent o (fuel + 1) ctx bank_agent input
      = Outcome.outputTripwire (o.bankQueries ctx text)
    ∧ ∀ p : FinalPayload,
      runAgent o (fuel + 1) ctx bank_agent input ≠ Outcome.ok p := by
  have hinf2 : o.infer ctx "Bank Agent" input = InferDecision.final text := hinf
  have hrun : runAgent o (fuel + 1) ctx bank_agent input
      = Outcome.outputTripwire (o.bankQueries ctx text) := by
    simp [runAgent, bank_agent, AgentDef.input_guardrails, AgentDef.output_guardrails,
      AgentDef.output_type, AgentDef.name, firstTripInput, evalInputGuardrail,
      check_bank_related, hin, hinf2, coerce, firstTripOutput, evalOutputGuardrail,
      control_response, payloadMessage, hout]
  refine ⟨hrun, fun p => ?_⟩
  rw [hrun]
  exact fun hcontra => Outcome.noConfusion hcontra

/-- Witness for C5: an output-checking agent that rejects the produced
response makes the run end in the output tripwire, not in a result. -/
theorem C5_output_guardrail_blocks_witness :
    runAgent
      { bankRelated := fun _ _ => { is_bank_related := true },
        bankQueries := fun _ _ => { is_bank_queries := false },
        infer := fun _ _ _ => InferDecision.final "Let us discuss soccer." }
      1 (Account.toCtx user_context) bank_agent "I want to check my balance."
      = Outcome.outputTripwire { is_bank_queries := false } :=
  (C5_output_guardrail_blocks
    { bankRelated := fun _ _ => { is_bank_related := true },
      bankQueries := fun _ _ => { is_bank_queries := false },
      infer := fun _ _ _ => InferDecision.final "Let us discuss soccer." }
    0 (Account.toCtx user_context) "I want to check my balance."
    "Let us discuss soccer." rfl rfl rfl).1

/-- Every valid handoff index of `bank_agent` names `customer_agent` or
`loan_agent`. -/
lemma bank_handoff_cases (t : Nat) (b : AgentDef)
    (hb : bank_agent.handoffs.get? t = some b) :
    b = customer_agent ∨ b = loan_agent := by
  rcases t with _ | _ | n
  · exact Or.inl (Option.some.inj hb).symm
  · exact Or.inr (Option.some.inj hb).symm
  · simp [bank_agent, AgentDef.handoffs] at hb

/-- Unfolding of one Runner step on `bank_agent` when the input guardrail
passes and the inference delegates to a declared target: the run re-enters
the orchestration on the target with the same context and the delegated
input. -/
lemma runAgent_bank_handoff (o : Oracle) (fuel : Nat) (ctx : Ctx) (input : String)
    (t : Nat) (dinput : String) (b : AgentDef)
    (hin : (o.bankRelated ctx input).is_bank_related = true)
    (hinf : o.infer ctx "Bank Agent" input = InferDecision.handoff t dinput)
    (hb : bank_agent.handoffs.get? t = some b) :
    runAgent o (fuel + 1) ctx bank_agent input = runAgent o fuel ctx b dinput := by
  have hb2 : [customer_agent, loan_agent][t]? = some b := by
    simpa [bank_agent, AgentDef.handoffs, List.get?_eq_getElem?] using hb
  simp [runAgent, bank_agent, AgentDef.input_guardrails, AgentDef.name,
    AgentDef.handoffs, firstTripInput, evalInputGuardrail, check_bank_related,
    hin, hinf, hb2]

/-- C8: delegation is transparent to the caller: when `bank_agent` hands a
turn off to one of its declared targets, the result of the whole run equals
the result the target itself produces for the delegated input under the
same context (at any fuel, since the targets terminate the chain), and
`bank_agent`'s own output guardrail is not applied to that delegated
result — the outcome is unchanged under any output-checking agent. -/
theorem C8_handoff_transparent (o : Oracle) (f g : Nat) (ctx : Ctx)
    (input : String) (t : Nat) (dinput : String) (b : AgentDef)
    (hin : (o.bankRelated ctx input).is_bank_related = true)
    (hinf : o.infer ctx bank_agent.name input = InferDecision.handoff t dinput)
    (hb : bank_agent.handoffs.get? t = some b) :
    runAgent o (f + 2) ctx bank_agent input = runAgent o (g + 1) ctx b dinput
    ∧ ∀ q : Ctx → String → OutputCheck,
      runAgent { o with bankQueries := q } (f + 2) ctx bank_agent input
        = runAgent o (f + 2) ctx bank_agent input := by
  have hempty : b.handoffs = [] ∧ b.input_guardrails = [] ∧ b.output_guardrails = [] := by
    rcases bank_handoff_cases t b hb with h | h <;> subst h <;> exact ⟨rfl, rfl, rfl⟩
  constructor
  · rw [runAgent_bank_handoff o (f + 1) ctx input t dinput b hin hinf hb,
      runAgent_plain o ctx b dinput hempty.1 hempty.2.1 hempty.2.2 f,
      runAgent_plain o ctx b dinput hempty.1 hempty.2.1 hempty.2.2 g]
  · intro q
    rw [runAgent_bank_handoff { o with bankQueries := q } (f + 1) ctx input t dinput b hin hinf hb,
      runAgent_bank_handoff o (f + 1) ctx input t dinput b hin hinf hb,
      runAgent_plain { o with bankQueries := q } ctx b dinput hempty.1 hempty.2.1 hempty.2.2 f,
      runAgent_plain o ctx b dinput hempty.1 hempty.2.1 hempty.2.2 f]

/-- Witness for C8: the delegated run on `loan_agent` is returned to the
caller unchanged. -/
theorem C8_handoff_transparent_witness :
    runAgent oracleC8 2 (Account.toCtx user_context) bank_agent "I need a loan"
      = runAgent oracleC8 1 (Account.toCtx user_context) loan_agent "loan requirements" :=
  (C8_handoff_transparent oracleC8 0 0 (Account.toCtx user_context) "I need a loan"
    1 "loan requirements" loan_agent rfl (by decide) rfl).1

/-- C10: both handoff targets are unguarded: `customer_agent` and
`loan_agent` are constructed with no input guardrails, no output guardrails
and no output_type, so a turn delegated to either produces its final output
raw — with no output-guardrail check (the outcome is the same under
arbitrary checking agents) and no schema coercion — for every input and
context. -/
theorem C10_handoff_targets_unguarded :
    (customer_agent.input_guardrails = [] ∧ customer_agent.output_guardrails = []
      ∧ customer_agent.output_type = none)
    ∧ (loan_agent.input_guardrails = [] ∧ loan_agent.output_guardrails = []
      ∧ loan_agent.output_type = none)
    ∧ (∀ (o : Oracle) (fuel : Nat) (ctx : Ctx) (input text : String),
      o.infer ctx customer_agent.name input = InferDecision.final text →
      ∀ (br : Ctx → String → GuardrailAgentOutput) (bq : Ctx → String → OutputCheck),
        runAgent { o with bankRelated := br, bankQueries := bq } (fuel + 1)
            ctx customer_agent input
          = Outcome.ok (FinalPayload.raw text))
    ∧ (∀ (o : Oracle) (fuel : Nat) (ctx : Ctx) (input text : String),
      o.infer ctx loan_agent.name input = InferDecision.final text →
      ∀ (br : Ctx → String → GuardrailAgentOutput) (bq : Ctx → String → OutputCheck),
        runAgent { o with bankRelated := br, bankQueries := bq } (fuel + 1)
            ctx loan_agent input
          = Outcome.ok (FinalPayload.raw text)) := by
  refine ⟨⟨rfl, rfl, rfl⟩, ⟨rfl, rfl, rfl⟩, ?_, ?_⟩
  · intro o fuel ctx input text h br bq
    have h2 : ({ o with bankRelated := br, bankQueries := bq } : Oracle).infer
        = o.infer := rfl
    rw [runAgent_plain _ ctx customer_agent input rfl rfl rfl fuel, h2, h]
    rfl
  · intro o fuel ctx input text h br bq
    have h2 : ({ o with bankRelated := br, bankQueries := bq } : Oracle).infer
        = o.infer := rfl
    rw [runAgent_plain _ ctx loan_agent input rfl rfl rfl fuel, h2, h]
    rfl

/-- Witness for C10: a delegated turn on `customer_agent` returns the raw
model text even though the output-checking agent would reject it. -/
theorem C10_handoff_targets_unguarded_witness :
    runAgent
      { bankRelated := fun _ _ => { is_bank_related := false },
        bankQueries := fun _ _ => { is_bank_queries := false },
        infer := fun _ _ _ => InferDecision.final "refund issued" }
      1 (Account.toCtx user_context) customer_agent "refund please"
      = Outcome.ok (FinalPayload.raw "refund issued") :=
  C10_handoff_targets_unguarded.2.2.1
    { bankRelated := fun _ _ => { is_bank_related := true },
      bankQueries := fun _ _ => { is_bank_queries := true },
      infer := fun _ _ _ => InferDecision.final "refund issued" }
    0 (Account.toCtx user_context) "refund please" "refund issued" rfl
    (fun _ _ => { is_bank_related := false })
    (fun _ _ => { is_bank_queries := false })

/-- C6: every Runner.run call on the demo agent yields exactly one of a
final structured output or a tripwire signal — never both and never
neither.  Under the inference interface contract of spec §6 (a delegation
names a declared target), a run of `bank_agent` at any fuel at least two
is a final result, an input tripwire, or an output tripwire (so the run
neither exhausts its fuel nor hits an interface violation), and it cannot
simultaneously be a result and a tripwire. -/
theorem C6_exactly_one_outcome (o : Oracle) (ctx : Ctx) (input : String) (fuel : Nat)
    (hwfb : OracleWfFor o bank_agent)
    (hwfc : OracleWfFor o customer_agent)
    (hwfl : OracleWfFor o loan_agent) :
    ((∃ p, runAgent o (fuel + 2) ctx bank_agent input = Outcome.ok p)
      ∨ (∃ v, runAgent o (fuel + 2) ctx bank_agent input = Outcome.inputTripwire v)
      ∨ (∃ v, runAgent o (fuel + 2) ctx bank_agent input = Outcome.outputTripwire v))
    ∧ ¬((∃ p, runAgent o (fuel + 2) ctx bank_agent input = Outcome.ok p)
      ∧ ((∃ v, runAgent o (fuel + 2) ctx bank_agent input = Outcome.inputTripwire v)
        ∨ (∃ v, runAgent o (fuel + 2) ctx bank_agent input = Outcome.outputTripwire v))) := by
  have h2 : fuel + 2 = (fuel + 1) + 1 := rfl
  constructor
  · cases hin : (o.bankRelated ctx input).is_bank_related with
    | false =>
      exact Or.inr (Or.inl ⟨o.bankRelated ctx input,
        runAgent_bank_inputTrip o (fuel + 1) ctx input hin⟩)
    | true =>
      cases hinf : o.infer ctx "Bank Agent" input with
      | final text =>
        cases hout : (o.bankQueries ctx text).is_bank_queries with
        | true =>
          refine Or.inl ⟨FinalPayload.message { response := text }, ?_⟩
          rw [h2]
          simp [runAgent, bank_agent, AgentDef.input_guardrails, AgentDef.output_guardrails,
            AgentDef.output_type, AgentDef.name, firstTripInput, evalInputGuardrail,
            check_bank_related, hin, hinf, coerce, firstTripOutput, evalOutputGuardrail,
            control_response, payloadMessage, hout]
        | false =>
          refine Or.inr (Or.inr ⟨o.bankQueries ctx text, ?_⟩)
          rw [h2]
          simp [runAgent, bank_agent, AgentDef.input_guardrails, AgentDef.output_guardrails,
            AgentDef.output_type, AgentDef.name, firstTripInput, evalInputGuardrail,
            check_bank_related, hin, hinf, coerce, firstTripOutput, evalOutputGuardrail,
            control_response, payloadMessage, hout]
      | handoff t d =>
        have ht : t < 2 := by
          simpa [bank_agent, AgentDef.handoffs] using hwfb ctx input t d hinf
        have hrec : ∀ b : AgentDef, bank_agent.handoffs.get? t = some b →
            b.handoffs = [] → b.input_guardrails = [] → b.output_guardrails = [] →
            b.output_type = none →
            (∀ ctx' inp' t' d', o.infer ctx' b.name inp' = InferDecision.handoff t' d' →
              t' < b.handoffs.length) →
            ((∃ p, runAgent o (fuel + 2) ctx bank_agent input = Outcome.ok p)
              ∨ (∃ v, runAgent o (fuel + 2) ctx bank_agent input = Outcome.inputTripwire v)
              ∨ (∃ v, runAgent o (fuel + 2) ctx bank_agent input = Outcome.outputTripwire v)) := by
          intro b hb hbh hbi hbo hbt hwf
          rw [h2, runAgent_bank_handoff o (fuel + 1) ctx input t d b hin hinf hb,
            runAgent_plain o ctx b d hbh hbi hbo fuel]
          cases hinfb : o.infer ctx b.name d with
          | final tx => exact Or.inl ⟨FinalPayload.raw tx, by simp [hbt, coerce]⟩
          | handoff tb db =>
            have := hwf ctx d tb db hinfb
            rw [hbh] at this
            exact absurd this (by simp)
        rcases t with _ | _ | n
        · exact hrec customer_agent rfl rfl rfl rfl rfl hwfc
        · exact hrec loan_agent rfl rfl rfl rfl rfl hwfl
        · omega
  · rintro ⟨⟨p, hp⟩, hv⟩
    rcases hv with ⟨v, hv⟩ | ⟨v, hv⟩ <;> rw [hp] at hv <;> exact Outcome.noConfusion hv

/-- Witness for C6: at the demo context and prompt, with an oracle whose
inferences respect the interface, the run is a result or a tripwire and
not both. -/
theorem C6_exactly_one_outcome_witness :
    ((∃ p, runAgent oracleC8 2 (Account.toCtx user_context) bank_agent "I need a loan"
        = Outcome.ok p)
      ∨ (∃ v, runAgent oracleC8 2 (Account.toCtx user_context) bank_agent "I need a loan"
        = Outcome.inputTripwire v)
      ∨ (∃ v, runAgent oracleC8 2 (Account.toCtx user_context) bank_agent "I need a loan"
        = Outcome.outputTripwire v))
    ∧ ¬((∃ p, runAgent oracleC8 2 (Account.toCtx user_context) bank_agent "I need a loan"
        = Outcome.ok p)
      ∧ ((∃ v, runAgent oracleC8 2 (Account.toCtx user_context) bank_agent "I need a loan"
        = Outcome.inputTripwire v)
        ∨ (∃ v, runAgent oracleC8 2 (Account.toCtx user_context) bank_agent "I need a loan"
        = Outcome.outputTripwire v))) :=
  C6_exactly_one_outcome oracleC8 (Account.toCtx user_context) "I need a loan" 0
    (by
      intro ctx inp t d h
      simp [oracleC8, bank_agent, AgentDef.name, AgentDef.handoffs] at h ⊢
      omega)
    (by intro ctx inp t d h; simp [oracleC8, customer_agent, AgentDef.name] at h)
    (by intro ctx inp t d h; simp [oracleC8, loan_agent, AgentDef.name] at h)

/-- C9: for every account_number string, `check_balance` returns exactly
the string `"The balance for account {account_number} is $100,000"`; the
reported figure is the constant `$100,000` whatever account is asked
about, and the tool is a total function, never failing once enabled. -/
theorem C9_check_balance_constant :
    ∀ account_number : String,
      check_balance account_number
        = "The balance for account " ++ account_number ++ " is $100,000" :=
  fun _ => rfl

/-- The state-threaded input-guardrail scan leaves a preserved context
unchanged and computes the same verdicts as the pure scan. -/
lemma firstTripInputSt_preserving (o : OracleSt) (hp : o.Preserving)
    (gs : List InputGuardrailId) (ctx : Ctx) (input : String) :
    firstTripInputSt o ctx gs input
      = (firstTripInput o.toPure ctx gs input, ctx) := by
  induction gs with
  | nil => rfl
  | cons g gs ih =>
    cases g
    by_cases htrip : (!(o.bankRelated ctx input).1.is_bank_related) = true
    · simp [firstTripInputSt, firstTripInput, evalInputGuardrail,
        check_bank_related_st, check_bank_related, OracleSt.toPure, hp.1, htrip]
    · simp [firstTripInputSt, firstTripInput, evalInputGuardrail,
        check_bank_related_st, check_bank_related, OracleSt.toPure, hp.1, htrip, ih]

/-- Same for the output-guardrail scan. -/
lemma firstTripOutputSt_preserving (o : OracleSt) (hp : o.Preserving)
    (gs : List OutputGuardrailId) (ctx : Ctx) (p : FinalPayload) :
    firstTripOutputSt o ctx gs p
      = (firstTripOutput o.toPure ctx gs p, ctx) := by
  induction gs with
  | nil => rfl
  | cons g gs ih =>
    cases g
    by_cases htrip : (!(o.bankQueries ctx (payloadMessage p).response).1.is_bank_queries) = true
    · simp [firstTripOutputSt, firstTripOutput, evalOutputGuardrail,
        control_response_st, control_response, OracleSt.toPure, hp.2.1, htrip]
    · simp [firstTripOutputSt, firstTripOutput, evalOutputGuardrail,
        control_response_st, control_response, OracleSt.toPure, hp.2.1, htrip, ih]

/-- Frame property of the modelled Runner: when every collaborator call
preserves the context state, a whole run — through guardrail evaluations,
inference and any handoff recursion — returns the context it was given,
and its outcome is the pure policy decision. -/
lemma runAgentSt_frame (o : OracleSt) (hp : o.Preserving) :
    ∀ (fuel : Nat) (ctx : Ctx) (a : AgentDef) (input : String),
      runAgentSt o fuel ctx a input
        = (runAgent o.toPure fuel ctx a input, ctx) := by
  intro fuel
  induction fuel with
  | zero => intro ctx a input; rfl
  | succ n ih =>
    intro ctx a input
    cases hft : firstTripInput o.toPure ctx a.input_guardrails input with
    | some v =>
      simp [runAgentSt, runAgent, firstTripInputSt_preserving o hp, hft]
    | none =>
      have hi := hp.2.2 ctx a.name input
      rcases hoi : o.infer ctx a.name input with ⟨dec, ctx2⟩
      rw [hoi] at hi
      simp only at hi
      rw [hi] at hoi
      have hpi : o.toPure.infer ctx a.name input = dec := by
        simp [OracleSt.toPure, hoi]
      cases dec with
      | handoff t d =>
        cases hb : a.handoffs[t]? with
        | some b =>
          simp [runAgentSt, runAgent, firstTripInputSt_preserving o hp, hft,
            hoi, hpi, hb, ih]
        | none =>
          simp [runAgentSt, runAgent, firstTripInputSt_preserving o hp, hft,
            hoi, hpi, hb]
      | final text =>
        cases hfo : firstTripOutput o.toPure ctx a.output_guardrails
            (coerce a.output_type text) with
        | some v =>
          simp [runAgentSt, runAgent, firstTripInputSt_preserving o hp, hft,
            firstTripOutputSt_preserving o hp, hoi, hpi, hfo]
        | none =>
          simp [runAgentSt, runAgent, firstTripInputSt_preserving o hp, hft,
            firstTripOutputSt_preserving o hp, hoi, hpi, hfo]

/-- C7: the context is never mutated by any component during a run.  With
the context state made explicit, the enablement predicate and both
guardrail functions return the state they were given (they only read the
context), and — whenever the opaque collaborator calls preserve the state,
as the tool-less checking agents do — an entire run of the Runner returns
its context unchanged, its outcome being the pure policy decision of the
context and the texts judged. -/
theorem C7_context_never_mutated (o : OracleSt) (hp : o.Preserving) :
    (∀ (fuel : Nat) (ctx : Ctx) (a : AgentDef) (input : String),
      runAgentSt o fuel ctx a input
        = (runAgent o.toPure fuel ctx a input, ctx))
    ∧ (∀ (ctx : Ctx) (a : AgentDef),
      is_authenticated_st ctx a = (is_authenticated ctx a, ctx))
    ∧ (∀ (ctx : Ctx) (input : String),
      check_bank_related_st o.bankRelated ctx input
        = (check_bank_related o.toPure.bankRelated ctx input, ctx))
    ∧ (∀ (ctx : Ctx) (output : MessageOutput),
      control_response_st o.bankQueries ctx output
        = (control_response o.toPure.bankQueries ctx output, ctx)) := by
  refine ⟨runAgentSt_frame o hp, fun ctx a => rfl, ?_, ?_⟩
  · intro ctx input
    simp [check_bank_related_st, check_bank_related, OracleSt.toPure, hp.1]
  · intro ctx output
    simp [control_response_st, control_response, OracleSt.toPure, hp.2.1]

/-- Witness for C7: a full run on the demo context returns that context
unchanged alongside the pure outcome. -/
theorem C7_context_never_mutated_witness :
    runAgentSt oracleStDemo 2 (Account.toCtx user_context) bank_agent
        "I want to check my balance."
      = (runAgent oracleStDemo.toPure 2 (Account.toCtx user_context) bank_agent
          "I want to check my balance.",
        Account.toCtx user_context) :=
  (C7_context_never_mutated oracleStDemo
    ⟨fun _ _ => rfl, fun _ _ => rfl, fun _ _ _ => rfl⟩).1
    2 (Account.toCtx user_context) bank_agent "I want to check my balance."

end BankAgent
